import Mathlib

/-!
Verification of the joydance repository (kzvdar42/joydance) against its
natural-language specification.  The definitions below are a shallow
embedding of the Python sources:

  - src/joydance/constants.py  (Command enum, protocol versions)
  - src/joydance/__init__.py   (class JoyDance: command preprocessing,
                                accelerometer streaming loop, disconnect and
                                reconnection logic, message handling)
  - src/dance.py               (configuration validators, connect_joycon)

Python machine integers are modelled as Int (arbitrary precision, as in
Python); Python lists as List; the defaultdict(int) for per-row column
indices as a total function with default 0; dict-key lookups that can raise
KeyError return Option.  Exceptions raised inside a preprocessing call are
modelled by an explicit error result, since the caller (send_command)
catches them and continues.
-/

/-- A Python value appearing in an outgoing message payload or as a
Command enum value: either an int or a str. -/
inductive PyVal
  | int (i : Int)
  | str (s : String)
deriving DecidableEq

/-- Models Python's type(v) == str check. -/
def PyVal.isStr : PyVal → Bool
  | .str _ => true
  | .int _ => false

/-- The Command enum from src/joydance/constants.py (lines 51-89),
one constructor per member. -/
inductive Command
  | UP
  | RIGHT
  | DOWN
  | LEFT
  | ACCEPT
  | V1_KEYBOARD_ERROR_OK
  | V1_FAVORITE
  | PAUSE
  | BACK
  | CHANGE_DANCERCARD
  | DONT_SHOW_ANYMORE
  | FAVORITE
  | GOTO_SONGSTAB
  | SKIP
  | SORTING
  | SWAP_GENDER
  | SWEAT_ACTIVATION
  | TOGGLE_COOP
  | UPLAY
  | ACTIVATE_DANCERCARD
  | DELETE_DANCERCARD
  | DELETE_PLAYLIST
  | SAVE_PLAYLIST
  | PLAYLIST_RENAME
  | PLAYLIST_DELETE_SONG
  | PLAYLIST_MOVE_SONG_LEFT
  | PLAYLIST_MOVE_SONG_RIGHT
  | TIPS_NEXT
  | TIPS_PREVIOUS
  | SHORTCUT_SEARCH
  | SHORTCUT_EXTRA
deriving DecidableEq

/-- The wire value of each Command enum member (constants.py lines 51-89). -/
def Command.value : Command → PyVal
  | .UP => .int 3690595578
  | .RIGHT => .int 1099935642
  | .DOWN => .int 2467711647
  | .LEFT => .int 3652315484
  | .ACCEPT => .int 1084313942
  | .V1_KEYBOARD_ERROR_OK => .int 185785632
  | .V1_FAVORITE => .int 2424896653
  | .PAUSE => .str "PAUSE"
  | .BACK => .str "SHORTCUT_BACK"
  | .CHANGE_DANCERCARD => .str "SHORTCUT_CHANGE_DANCERCARD"
  | .DONT_SHOW_ANYMORE => .str "SHORTCUT_DONT_SHOW_ANYMORE"
  | .FAVORITE => .str "SHORTCUT_FAVORITE"
  | .GOTO_SONGSTAB => .str "SHORTCUT_GOTO_SONGSTAB"
  | .SKIP => .str "SHORTCUT_SKIP"
  | .SORTING => .str "SHORTCUT_SORTING"
  | .SWAP_GENDER => .str "SHORTCUT_SWAP_GENDER"
  | .SWEAT_ACTIVATION => .str "SHORTCUT_SWEAT_ACTIVATION"
  | .TOGGLE_COOP => .str "SHORTCUT_TOGGLE_COOP"
  | .UPLAY => .str "SHORTCUT_UPLAY"
  | .ACTIVATE_DANCERCARD => .str "SHORTCUT_ACTIVATE_DANCERCARD"
  | .DELETE_DANCERCARD => .str "SHORTCUT_DELETE_DANCERCARD"
  | .DELETE_PLAYLIST => .str "SHORTCUT_DELETE_PLAYLIST"
  | .SAVE_PLAYLIST => .str "SHORTCUT_SAVE_PLAYLIST"
  | .PLAYLIST_RENAME => .str "SHORTCUT_PLAYLIST_RENAME"
  | .PLAYLIST_DELETE_SONG => .str "SHORTCUT_PLAYLIST_DELETE_SONG"
  | .PLAYLIST_MOVE_SONG_LEFT => .str "SHORTCUT_PLAYLIST_MOVE_SONG_LEFT"
  | .PLAYLIST_MOVE_SONG_RIGHT => .str "SHORTCUT_PLAYLIST_MOVE_SONG_RIGHT"
  | .TIPS_NEXT => .str "SHORTCUT_TIPS_NEXT"
  | .TIPS_PREVIOUS => .str "SHORTCUT_TIPS_PREVIOUS"
  | .SHORTCUT_SEARCH => .str "SHORTCUT_SEARCH"
  | .SHORTCUT_EXTRA => .str "SHORTCUT_EXTRA"

/-- All members of the Command enum, in declaration order. -/
def Command.all : List Command :=
  [.UP, .RIGHT, .DOWN, .LEFT, .ACCEPT, .V1_KEYBOARD_ERROR_OK, .V1_FAVORITE,
   .PAUSE, .BACK, .CHANGE_DANCERCARD, .DONT_SHOW_ANYMORE, .FAVORITE,
   .GOTO_SONGSTAB, .SKIP, .SORTING, .SWAP_GENDER, .SWEAT_ACTIVATION,
   .TOGGLE_COOP, .UPLAY, .ACTIVATE_DANCERCARD, .DELETE_DANCERCARD,
   .DELETE_PLAYLIST, .SAVE_PLAYLIST, .PLAYLIST_RENAME, .PLAYLIST_DELETE_SONG,
   .PLAYLIST_MOVE_SONG_LEFT, .PLAYLIST_MOVE_SONG_RIGHT, .TIPS_NEXT,
   .TIPS_PREVIOUS, .SHORTCUT_SEARCH, .SHORTCUT_EXTRA]

/-- Models the Python enum value-lookup Command(v): the member whose value
equals v, or none (a ValueError in Python) when no member matches. -/
def Command.ofVal (v : PyVal) : Option Command :=
  Command.all.find? (fun c => c.value = v)

/-- WsSubprotocolVersion from constants.py. -/
inductive WsSubprotocolVersion
  | V1
  | V2
deriving DecidableEq

/-- One accelerometer sample [x, y, z] as produced by joycon.get_accels(). -/
def Accel : Type := Int × Int × Int

instance : DecidableEq Accel := by unfold Accel; infer_instance

/-- An outgoing protocol message: the __class tag and the data fields in
insertion order, as assembled by the preprocessors before send_message. -/
structure OutMsg where
  cls : String
  data : List (String × PyVal)
deriving DecidableEq

/-- A JD_PhoneScoringData message produced by send_accelerometer_data:
the accelData batch and the timeStamp field. -/
structure ScoringMsg where
  accelData : List Accel
  timeStamp : Int
deriving DecidableEq

/-- Result of one preprocess_command call as observed by send_command:
a message to send, a suppressed command (the Python return None, None), or
a raised exception (caught by send_command, which then continues). -/
inductive PreOut
  | msg (m : OutMsg)
  | suppressed
  | err
deriving DecidableEq

/-- The mutable state of one JoyDance object (src/joydance/__init__.py,
fields assigned in __init__, lines 51-98) restricted to the fields the
verified operations read or write.  v1_col_num_per_row_id is the
defaultdict(int), modelled as a total function with default 0;
v1_num_columns_per_row_id is the dict {row_num: count} whose keys are
always 0..n-1 (it is only ever assigned from enumerate), modelled as the
list of counts. -/
structure JD where
  protocol_version : WsSubprotocolVersion
  is_input_allowed : Bool
  is_in_lobby : Bool
  is_on_recap : Bool
  is_search_opened : Bool
  v1_row_num : Int
  v1_col_num_per_row_id : Int → Int
  v1_num_columns_per_row_id : List Nat
  v1_coach_id : Int
  v1_num_coaches : Int
  v1_action_id : Int
  available_shortcuts : List Command
  should_start_accelerometer : Bool
  number_of_accels_sent : Int
  accel_data : List Accel
  disconnected : Bool
  should_reconnect : Bool
  reconnection_task : Bool

/-- The initial JoyDance state set up by __init__ (lines 70-98). -/
def JoyDance_init (v : WsSubprotocolVersion) : JD where
  protocol_version := v
  is_input_allowed := false
  is_in_lobby := false
  is_on_recap := false
  is_search_opened := false
  v1_row_num := 0
  v1_col_num_per_row_id := fun _ => 0
  v1_num_columns_per_row_id := []
  v1_coach_id := 0
  v1_num_coaches := 0
  v1_action_id := 0
  available_shortcuts := []
  should_start_accelerometer := false
  number_of_accels_sent := 0
  accel_data := []
  disconnected := false
  should_reconnect := true
  reconnection_task := false

/-- Point update of the defaultdict modelled as a function. -/
def updInt (f : Int → Int) (k v : Int) : Int → Int :=
  fun x => if x = k then v else f x

/-- Lookup in the v1_num_columns_per_row_id dict; none models a KeyError
for a row index outside 0..n-1. -/
def v1_num_columns_get (st : JD) (r : Int) : Option Nat :=
  if r < 0 then none
  else st.v1_num_columns_per_row_id.get? r.toNat

/-- preprocess_command_for_v1 (src/joydance/__init__.py lines 433-516):
maps a Command to a protocol message, possibly mutating the navigation
state, possibly suppressing the send (None, None), possibly raising.
A command that falls off the end of the elif chain (V1_KEYBOARD_ERROR_OK
with input allowed) reaches the final return with __class unbound, which
raises UnboundLocalError, modelled as err. -/
def preprocess_command_for_v1 (st : JD) (cmd : Command) : JD × PreOut :=
  if cmd = .PAUSE then
    (st, .msg ⟨"JD_Pause_PhoneCommandData", []⟩)
  else if cmd = .BACK then
    if st.is_search_opened then
      (st, .msg ⟨"JD_CancelKeyboard_PhoneCommandData", []⟩)
    else
      (st, .msg ⟨"JD_Custom_PhoneCommandData", [("identifier", Command.value .BACK)]⟩)
  else if (Command.value cmd).isStr then
    (st, .msg ⟨"JD_Custom_PhoneCommandData", [("identifier", Command.value cmd)]⟩)
  else if cmd = .V1_FAVORITE then
    (st, .msg ⟨"JD_Input_PhoneCommandData", [("input", Command.value cmd)]⟩)
  else if cmd = .ACCEPT then
    if st.is_in_lobby then
      (st, .msg ⟨"JD_StartGame_PhoneCommandData", []⟩)
    else if st.is_on_recap then
      (st, .msg ⟨"JD_Input_PhoneCommandData", [("input", Command.value .ACCEPT)]⟩)
    else if st.is_search_opened then
      (st, .msg ⟨"JD_Input_PhoneCommandData", [("input", Command.value .V1_KEYBOARD_ERROR_OK)]⟩)
    else
      (st, .msg ⟨"ValidateAction_PhoneCommandData",
        [("rowIndex", .int st.v1_row_num),
         ("itemIndex", .int (st.v1_col_num_per_row_id st.v1_row_num)),
         ("actionIndex", .int st.v1_action_id)]⟩)
  else if ¬ st.is_input_allowed then
    (st, .suppressed)
  else if cmd = .UP then
    if st.is_in_lobby then
      (st, .suppressed)
    else if st.v1_row_num ≤ 0 then
      ({st with v1_row_num := (st.v1_num_columns_per_row_id.length : Int)}, .suppressed)
    else
      ({st with v1_row_num := st.v1_row_num - 1},
       .msg ⟨"ChangeRow_PhoneCommandData", [("rowIndex", .int (st.v1_row_num - 1))]⟩)
  else if cmd = .DOWN then
    if st.is_in_lobby then
      (st, .suppressed)
    else if st.v1_row_num ≥ (st.v1_num_columns_per_row_id.length : Int) - 1 then
      ({st with v1_row_num := 0}, .suppressed)
    else
      ({st with v1_row_num := st.v1_row_num + 1},
       .msg ⟨"ChangeRow_PhoneCommandData", [("rowIndex", .int (st.v1_row_num + 1))]⟩)
  else if cmd = .LEFT then
    if ¬ st.is_in_lobby then
      let r := st.v1_row_num
      let c1 := st.v1_col_num_per_row_id r - 1
      let st1 := {st with v1_col_num_per_row_id := updInt st.v1_col_num_per_row_id r c1}
      if c1 < 0 then
        match v1_num_columns_get st1 r with
        | none => (st1, .err)
        | some ncols =>
          let c2 : Int := (ncols : Int) - 1
          ({st1 with v1_col_num_per_row_id := updInt st1.v1_col_num_per_row_id r c2},
           .msg ⟨"ChangeItem_PhoneCommandData",
             [("rowIndex", .int r), ("itemIndex", .int c2)]⟩)
      else
        (st1, .msg ⟨"ChangeItem_PhoneCommandData",
          [("rowIndex", .int r), ("itemIndex", .int c1)]⟩)
    else
      if st.v1_coach_id = 0 then
        (st, .suppressed)
      else if st.v1_coach_id < 0 then
        ({st with v1_coach_id := 0}, .suppressed)
      else
        ({st with v1_coach_id := st.v1_coach_id - 1},
         .msg ⟨"JD_ChangeCoach_PhoneCommandData", [("coachId", .int (st.v1_coach_id - 1))]⟩)
  else if cmd = .RIGHT then
    if ¬ st.is_in_lobby then
      let r := st.v1_row_num
      let c1 := st.v1_col_num_per_row_id r + 1
      let st1 := {st with v1_col_num_per_row_id := updInt st.v1_col_num_per_row_id r c1}
      match v1_num_columns_get st1 r with
      | none => (st1, .err)
      | some ncols =>
        if c1 ≥ (ncols : Int) then
          ({st1 with v1_col_num_per_row_id := updInt st1.v1_col_num_per_row_id r 0},
           .msg ⟨"ChangeItem_PhoneCommandData",
             [("rowIndex", .int r), ("itemIndex", .int 0)]⟩)
        else
          (st1, .msg ⟨"ChangeItem_PhoneCommandData",
            [("rowIndex", .int r), ("itemIndex", .int c1)]⟩)
    else
      if st.v1_coach_id ≥ st.v1_num_coaches - 1 then
        ({st with v1_coach_id := st.v1_num_coaches - 1}, .suppressed)
      else
        ({st with v1_coach_id := st.v1_coach_id + 1},
         .msg ⟨"JD_ChangeCoach_PhoneCommandData", [("coachId", .int (st.v1_coach_id + 1))]⟩)
  else
    (st, .err)

/-- preprocess_command_for_v2 (lines 421-431). -/
def preprocess_command_for_v2 (st : JD) (cmd : Command) : JD × PreOut :=
  if cmd = .PAUSE then
    (st, .msg ⟨"JD_Pause_PhoneCommandData", []⟩)
  else if (Command.value cmd).isStr then
    (st, .msg ⟨"JD_Custom_PhoneCommandData", [("identifier", Command.value cmd)]⟩)
  else
    (st, .msg ⟨"JD_Input_PhoneCommandData", [("input", Command.value cmd)]⟩)

/-- preprocess_command (lines 518-523): protocol-version dispatch. -/
def preprocess_command (st : JD) (cmd : Command) : JD × PreOut :=
  if st.protocol_version = .V1 then preprocess_command_for_v1 st cmd
  else preprocess_command_for_v2 st cmd

/-- One iteration of the send_command loop body (lines 525-594), given the
command decoded from the controller events for this frame (none when no
button/stick input produced a command).  Returns the updated state and the
message sent over the transport this frame, if any.  An exception from
preprocessing is caught and the loop continues (lines 578-583); a (None,
None) preprocess result is skipped (line 585); the message is sent only if
is_input_allowed holds at that point (line 589). -/
def send_command_frame (st : JD) (cmd : Option Command) : JD × Option OutMsg :=
  if st.disconnected then (st, none)
  else if ¬ st.is_input_allowed ∧ ¬ st.should_start_accelerometer then (st, none)
  else
    match cmd with
    | none => (st, none)
    | some c =>
      let p := preprocess_command st c
      match p.2 with
      | .err => (p.1, none)
      | .suppressed => (p.1, none)
      | .msg m => if p.1.is_input_allowed then (p.1, some m) else (p.1, none)

/-- The "while len(tmp_accel_data) > 0" loop of send_accelerometer_data
(lines 410-419): pop up to 10 samples per message, timestamp each message
with the running number_of_accels_sent counter.  The loop removes at least
one sample per iteration, so the caller passes the list length as fuel; the
fuel-exhausted branch is unreachable for fuel at least the list length. -/
def flushLoop : Nat → List Accel → Int → List ScoringMsg × Int
  | _, [], sent => ([], sent)
  | 0, _ :: _, sent => ([], sent)
  | fuel + 1, a :: rest, sent =>
    let n := min (a :: rest).length 10
    let r := flushLoop fuel ((a :: rest).drop n) (sent + n)
    ({accelData := (a :: rest).take n, timeStamp := sent} :: r.1, r.2)

/-- send_accelerometer_data (lines 399-419): no-op unless streaming is
enabled and the frame counter has reached 3; otherwise pop the whole buffer
and send it in batches of at most 10. -/
def send_accelerometer_data (st : JD) (frames : Nat) : JD × List ScoringMsg :=
  if ¬ st.should_start_accelerometer then (st, [])
  else if frames < 3 then (st, [])
  else
    let tmp := st.accel_data
    let r := flushLoop tmp.length tmp st.number_of_accels_sent
    ({st with accel_data := [], number_of_accels_sent := r.2}, r.1)

/-- collect_accelerometer_data (lines 384-397), with the samples read from
the controller this frame passed in.  The OSError path (device read
failure) is not modelled: it fires self.disconnect() without awaiting it.
-/
def collect_accelerometer_data (st : JD) (samples : List Accel) : JD :=
  if st.disconnected then st
  else if ¬ st.should_start_accelerometer then {st with accel_data := []}
  else {st with accel_data := st.accel_data ++ samples}

/-- One iteration of the tick loop body (lines 363-382), given the samples
the controller delivers during the frame.  Returns the updated state, the
updated frames counter, and the scoring messages sent this frame.  Sleeping
and drift compensation are timing-only and not modelled. -/
def tick_step (st : JD) (samples : List Accel) (frames : Nat) :
    JD × Nat × List ScoringMsg :=
  if st.disconnected then (st, frames, [])
  else if ¬ st.should_start_accelerometer then (st, 0, [])
  else
    let frames2 := if frames < 3 then frames + 1 else 1
    let st1 := collect_accelerometer_data st samples
    let r := send_accelerometer_data st1 frames2
    (r.1, frames2, r.2)

/-- Several consecutive iterations of the tick loop, one entry of the
outer list per frame; returns the final state, final frames counter, and
the per-frame lists of scoring messages. -/
def tick_run (st : JD) (frames : Nat) : List (List Accel) → JD × Nat × List (List ScoringMsg)
  | [] => (st, frames, [])
  | s :: rest =>
    let r := tick_step st s frames
    let r2 := tick_run r.1 r.2.1 rest
    (r2.1, r2.2.1, r.2.2 :: r2.2.2)

/-- Outcome of one iteration of the attempt_reconnect while loop
(lines 659-684): the loop stops when should_reconnect is cleared, returns
on a successful reconnection, and otherwise sleeps retry_delay seconds and
doubles the delay capped at 30. -/
inductive ReconnectOutcome
  | succeeded
  | retryAfter (delay : Nat)
  | stopped
deriving DecidableEq

/-- One iteration of the attempt_reconnect loop: inputs are the
should_reconnect flag, whether the controller reconnected successfully this
attempt, and the current retry_delay; outputs the outcome and the
retry_delay for the next iteration. -/
def attempt_reconnect_step (should_reconnect connected : Bool) (retry_delay : Nat) :
    ReconnectOutcome × Nat :=
  if ¬ should_reconnect then (.stopped, retry_delay)
  else if connected then (.succeeded, retry_delay)
  else (.retryAfter retry_delay, min (retry_delay * 2) 30)

/-- The delay slept after the (n+1)-th consecutive failed reconnection
attempt: retry_delay starts at 1 (line 661) and each failed iteration
updates it via attempt_reconnect_step. -/
def retry_delay_seq : Nat → Nat
  | 0 => 1
  | n + 1 => (attempt_reconnect_step true false (retry_delay_seq n)).2

/-- disconnect (lines 645-657): sets the disconnected flag and, if
reconnection is enabled and no reconnection task is pending, schedules
exactly one reconnection task.  The second component counts the tasks
created by this call (0 or 1).  The state-changed notification, the
controller close and the websocket close are external effects and carry no
modelled state. -/
def disconnect (st : JD) : JD × Nat :=
  let st1 := {st with disconnected := true}
  if st1.should_reconnect ∧ ¬ st1.reconnection_task then
    ({st1 with reconnection_task := true}, 1)
  else
    (st1, 0)

/-- Models random.randrange(start, stop): the k-th element of the uniform
range start..stop-1, where k indexes the underlying random choice.  Every
output is start + j for some j < stop - start, and every such j is hit. -/
def randrange (start stop k : Nat) : Nat :=
  start + k % (stop - start)

/-- get_random_port (lines 100-102): random.randrange(39000, 39999). -/
def get_random_port (k : Nat) : Nat :=
  randrange 39000 39999 k

/-- Python regex semantics of a pattern of the form "core$" under
re.match: the dollar anchor matches at the end of the string or just
before a single trailing newline. -/
def dollarAnchor (core : List Char → Bool) (s : List Char) : Bool :=
  core s ||
    (match s.getLast? with
     | some c => c = '\n' && core s.dropLast
     | none => false)

/-- Core of REGEX_PAIRING_CODE (dance.py line 45), the pattern body
"\d{6}" anchored on both sides: exactly six digits. -/
def reDigits6 (s : List Char) : Bool :=
  s.length = 6 && s.all Char.isDigit

/-- is_valid_pairing_code (dance.py lines 235-236):
re.match(REGEX_PAIRING_CODE, val) is not None. -/
def is_valid_pairing_code (s : List Char) : Bool :=
  dollarAnchor reDigits6 s

/-- Written from the words of the claim, for comparison with the source
validator: the string consists of exactly 6 digits. -/
def exactly_six_digits (s : List Char) : Bool :=
  s.length = 6 && s.all Char.isDigit

/-- One alternative of the octet sub-pattern of REGEX_LOCAL_IP_ADDRESS:
"\d{1,2}|1\d\d|2[0-4]\d|25[0-5]". -/
def reOctet (s : List Char) : Bool :=
  match s with
  | [a] => a.isDigit
  | [a, b] => a.isDigit && b.isDigit
  | [a, b, c] =>
    (a = '1' && b.isDigit && c.isDigit) ||
    (a = '2' && '0' ≤ b && b ≤ '4' && c.isDigit) ||
    (a = '2' && b = '5' && '0' ≤ c && c ≤ '5')
  | _ => false

/-- The host alternative "192\.168|10.(octet)" of REGEX_LOCAL_IP_ADDRESS;
note the unescaped dot after 10 matches any character, as in the source
pattern. -/
def reHostAlt (s : List Char) : Bool :=
  s = ['1', '9', '2', '.', '1', '6', '8'] ||
    (match s with
     | '1' :: '0' :: _ :: rest => reOctet rest
     | _ => false)

/-- All ways to split a list into a prefix and a suffix. -/
def splitsAt (s : List Char) : List (List Char × List Char) :=
  (List.range (s.length + 1)).map fun i => (s.take i, s.drop i)

/-- Core of REGEX_LOCAL_IP_ADDRESS (dance.py line 46): the concatenation
host-alternative "." octet "." octet, matched with backtracking (some
split succeeds). -/
def reLocalIpCore (s : List Char) : Bool :=
  (splitsAt s).any fun p =>
    reHostAlt p.1 &&
      (match p.2 with
       | '.' :: r =>
         (splitsAt r).any fun q =>
           reOctet q.1 &&
             (match q.2 with
              | '.' :: t => reOctet t
              | _ => false)
       | _ => false)

/-- is_valid_ip_address (dance.py lines 239-240). -/
def is_valid_ip_address (s : List Char) : Bool :=
  dollarAnchor reLocalIpCore s

/-- is_valid_pairing_method (dance.py lines 243-249). -/
def is_valid_pairing_method (s : String) : Bool :=
  s = "default" || s = "fast" || s = "stadia" || s = "old"

/-- Result of the validation prologue of connect_joycon: rejected means
the function returned before saving config, opening the controller device
and scheduling the pairing task (so before any network activity). -/
inductive ConnectResult
  | rejected
  | proceeds
deriving DecidableEq

/-- The validation prologue of connect_joycon (dance.py lines 143-151). -/
def connect_joycon (pairing_method : String)
    (host_ip_addr console_ip_addr pairing_code : List Char) : ConnectResult :=
  if ¬ is_valid_pairing_method pairing_method then .rejected
  else if pairing_method = "default" ∧
      (¬ is_valid_ip_address host_ip_addr ∨ ¬ is_valid_pairing_code pairing_code) then
    .rejected
  else if pairing_method = "fast" ∧ ¬ is_valid_ip_address console_ip_addr then
    .rejected
  else
    .proceeds

/-- The carouselPosSetup sub-object: rowIndex, itemIndex, actionIndex. -/
structure CarouselPosSetup where
  rowIndex : Int
  itemIndex : Int
  actionIndex : Int
deriving DecidableEq

/-- The inputSetup sub-object of a JD_PhoneUiSetupData message. -/
structure InputSetup where
  isEnabled : Int
  carouselPosSetup : Option CarouselPosSetup
deriving DecidableEq

/-- One entry of setupData.shortcuts: its embedded serialized command,
reduced to the root.identifier field (a string) and the root.input field
(an int) when the corresponding JSON path parses; none models any parsing
or key failure on that path. -/
structure ShortcutItem where
  identifier : Option String
  input : Option Int
deriving DecidableEq

/-- The fields of a JD_PhoneUiSetupData message read by on_message and
parse_phone_setup_data.  pauseSlider is the truthiness of
setupData.gameplaySetup.pauseSlider; mainCarouselRows lists the item count
of each row of setupData.mainCarousel.rows (empty for an absent or empty
carousel); lobbyCoaches is the length of setupData.lobbySetup.coaches;
recapSetup is the truthiness of setupData.recapSetup. -/
structure PhoneUiSetupMsg where
  isPopup : Int
  inputSetup : Option InputSetup
  pauseSlider : Bool
  mainCarouselRows : List Nat
  lobbyCoaches : Nat
  recapSetup : Bool
  shortcuts : List ShortcutItem
deriving DecidableEq

/-- The two-stage shortcut parse of parse_phone_setup_data (lines
773-780): try Command(root.identifier) first, then Command(root.input);
none when both attempts fail (the entry is logged and skipped). -/
def parse_shortcut (it : ShortcutItem) : Option Command :=
  match it.identifier.bind (fun s => Command.ofVal (.str s)) with
  | some c => some c
  | none => it.input.bind (fun n => Command.ofVal (.int n))

/-- parse_phone_setup_data (lines 737-781): V1 navigation re-derivation
from a JD_PhoneUiSetupData message. -/
def parse_phone_setup_data (st : JD) (m : PhoneUiSetupMsg) : JD :=
  let st0 := {st with is_on_recap := false, is_in_lobby := false, is_search_opened := false}
  let st1 :=
    if m.mainCarouselRows = [] then st0
    else {st0 with v1_num_columns_per_row_id := m.mainCarouselRows}
  let st2 :=
    match m.inputSetup with
    | some i =>
      match i.carouselPosSetup with
      | some cps =>
        {st1 with v1_row_num := cps.rowIndex,
                  v1_col_num_per_row_id :=
                    updInt st1.v1_col_num_per_row_id cps.rowIndex cps.itemIndex,
                  v1_action_id := cps.actionIndex,
                  v1_coach_id := 0}
      | none => st1
    | none => st1
  let st3 :=
    if m.lobbyCoaches ≠ 0 then
      {st2 with is_in_lobby := true, v1_num_coaches := (m.lobbyCoaches : Int)}
    else st2
  let st4 := if m.recapSetup then {st3 with is_on_recap := true} else st3
  if m.shortcuts = [] then st4
  else {st4 with available_shortcuts := m.shortcuts.filterMap parse_shortcut}

/-- The JD_PhoneUiSetupData branch of on_message (lines 317-329): enable
input, reset the shortcut set, add PAUSE when a pause slider is present,
re-derive the V1 navigation state, then set is_input_allowed from isPopup
or inputSetup.isEnabled. -/
def on_phone_ui_setup_data (st : JD) (m : PhoneUiSetupMsg) : JD :=
  let st1 := {st with is_input_allowed := true, available_shortcuts := []}
  let st2 :=
    if m.pauseSlider then
      {st1 with available_shortcuts := st1.available_shortcuts ++ [Command.PAUSE]}
    else st1
  let st3 :=
    if st2.protocol_version = .V1 then parse_phone_setup_data st2 m else st2
  if m.isPopup = 1 then {st3 with is_input_allowed := true}
  else
    {st3 with is_input_allowed :=
      ((match m.inputSetup with | some i => i.isEnabled | none => 0 : Int)) = (1 : Int)}

/-! Theorems about the reconnection backoff (claim C5). -/

theorem retry_delay_seq_ge5 (n : Nat) (h : 5 ≤ n) : retry_delay_seq n = 30 := by
  induction n with
  | zero => omega
  | succ m ih =>
    rcases Nat.lt_or_ge m 5 with hm | hm
    · have hm4 : m = 4 := by omega
      subst hm4; decide
    · have h30 := ih hm
      show (attempt_reconnect_step true false (retry_delay_seq m)).2 = 30
      rw [h30]; decide

/-- C5: the reconnection loop sleeps 1, 2, 4, 8, 16 seconds after the
first five consecutive failed attempts and 30 seconds after every failed
attempt from the sixth onward, looping until an iteration succeeds or
should_reconnect is cleared. -/
theorem C5_backoff (n : Nat) (h : 5 ≤ n) :
    retry_delay_seq 0 = 1 ∧ retry_delay_seq 1 = 2 ∧ retry_delay_seq 2 = 4 ∧
    retry_delay_seq 3 = 8 ∧ retry_delay_seq 4 = 16 ∧ retry_delay_seq n = 30 ∧
    (∀ d, (attempt_reconnect_step false false d).1 = ReconnectOutcome.stopped) ∧
    (∀ d, (attempt_reconnect_step true true d).1 = ReconnectOutcome.succeeded) := by
  refine ⟨by decide, by decide, by decide, by decide, by decide,
    retry_delay_seq_ge5 n h, ?_, ?_⟩
  · intro d; simp [attempt_reconnect_step]
  · intro d; simp [attempt_reconnect_step]

/-- Witness for C5_backoff at the sixth failed attempt. -/
theorem C5_backoff_witness :
    retry_delay_seq 0 = 1 ∧ retry_delay_seq 1 = 2 ∧ retry_delay_seq 2 = 4 ∧
    retry_delay_seq 3 = 8 ∧ retry_delay_seq 4 = 16 ∧ retry_delay_seq 6 = 30 ∧
    (∀ d, (attempt_reconnect_step false false d).1 = ReconnectOutcome.stopped) ∧
    (∀ d, (attempt_reconnect_step true true d).1 = ReconnectOutcome.succeeded) :=
  C5_backoff 6 (by decide)

/-! Theorems about disconnect (claim C6). -/

/-- C6: with reconnection enabled and no task pending, the first
disconnect schedules exactly one reconnection task and a second disconnect
schedules none; in general any disconnect with a task already pending
schedules none. -/
theorem C6_disconnect_idempotent (st : JD)
    (h1 : st.should_reconnect = true) (h2 : st.reconnection_task = false) :
    (disconnect st).2 = 1 ∧
    (disconnect st).1.reconnection_task = true ∧
    (disconnect (disconnect st).1).2 = 0 ∧
    (disconnect st).2 + (disconnect (disconnect st).1).2 ≤ 1 ∧
    (∀ st2 : JD, st2.reconnection_task = true → (disconnect st2).2 = 0) := by
  refine ⟨?_, ?_, ?_, ?_, ?_⟩
  · simp [disconnect, h1, h2]
  · simp [disconnect, h1, h2]
  · simp [disconnect, h1, h2]
  · simp [disconnect, h1, h2]
  · intro st2 h; simp [disconnect, h]

/-- Witness for C6_disconnect_idempotent on the freshly initialized
session state. -/
theorem C6_disconnect_idempotent_witness :
    (disconnect (JoyDance_init .V2)).2 = 1 ∧
    (disconnect (JoyDance_init .V2)).1.reconnection_task = true ∧
    (disconnect (disconnect (JoyDance_init .V2)).1).2 = 0 ∧
    (disconnect (JoyDance_init .V2)).2 + (disconnect (disconnect (JoyDance_init .V2)).1).2 ≤ 1 ∧
    (∀ st2 : JD, st2.reconnection_task = true → (disconnect st2).2 = 0) :=
  C6_disconnect_idempotent (JoyDance_init .V2) rfl rfl

/-! Theorems about the random port (claim C7). -/

/-- C7 counterexample: 39999 is not a possible result of get_random_port,
because random.randrange(39000, 39999) excludes its stop value; the claim
that every integer of the closed interval 39000..39999 is possible is
therefore false at 39999. -/
theorem C7_port_counterexample : ¬ ∃ k, get_random_port k = 39999 := by
  rintro ⟨k, hk⟩
  unfold get_random_port randrange at hk
  have h999 : k % (39999 - 39000) < 39999 - 39000 := Nat.mod_lt _ (by decide)
  omega

/-- C7 amended: every call returns an integer in the closed interval
39000..39998, and every integer of that interval, including 39998, is a
possible result. -/
theorem C7_port_amended (k p : Nat) (h1 : 39000 ≤ p) (h2 : p ≤ 39998) :
    (39000 ≤ get_random_port k ∧ get_random_port k ≤ 39998) ∧
    get_random_port (p - 39000) = p := by
  unfold get_random_port randrange
  have ha : k % (39999 - 39000) < 39999 - 39000 := Nat.mod_lt _ (by decide)
  have hb : (p - 39000) % (39999 - 39000) = p - 39000 :=
    Nat.mod_eq_of_lt (by omega)
  omega

/-- Witness for C7_port_amended at the top of the real range. -/
theorem C7_port_amended_witness :
    (39000 ≤ get_random_port 5 ∧ get_random_port 5 ≤ 39998) ∧
    get_random_port (39998 - 39000) = 39998 :=
  C7_port_amended 5 39998 (by decide) (by decide)

/-! Theorems about disabled accelerometer frames (claim C4). -/

/-- C4 counterexample: a tick-loop iteration with streaming disabled does
not clear the sample buffer — a sample buffered before disabling is still
in the buffer at the end of the disabled frame. -/
theorem C4_disabled_counterexample :
    (tick_step {JoyDance_init .V2 with
        accel_data := [((1 : Int), (2 : Int), (3 : Int))]} [] 0).1.accel_data =
      [((1 : Int), (2 : Int), (3 : Int))] ∧
    (tick_step {JoyDance_init .V2 with
        accel_data := [((1 : Int), (2 : Int), (3 : Int))]} [] 0).1.accel_data ≠ [] := by
  decide

/-- C4 amended: a tick-loop iteration with streaming disabled idles — it
leaves the whole state (the sample buffer included) unchanged, resets the
frames counter to 0 and sends nothing; the buffer is cleared only when
collect_accelerometer_data itself runs while streaming is disabled, which
happens only inside a frame that started with streaming enabled. -/
theorem C4_disabled_amended (st : JD) (s : List Accel) (f : Nat)
    (hd : st.disconnected = false) (hs : st.should_start_accelerometer = false) :
    tick_step st s f = (st, 0, []) ∧
    (collect_accelerometer_data st s).accel_data = [] := by
  constructor
  · simp [tick_step, hd, hs]
  · simp [collect_accelerometer_data, hd, hs]

/-- Witness for C4_disabled_amended on a concrete disabled state with a
buffered sample. -/
theorem C4_disabled_amended_witness :
    tick_step {JoyDance_init .V2 with
        accel_data := [((1 : Int), (2 : Int), (3 : Int))]} [] 7 =
      ({JoyDance_init .V2 with accel_data := [((1 : Int), (2 : Int), (3 : Int))]}, 0, []) ∧
    (collect_accelerometer_data {JoyDance_init .V2 with
        accel_data := [((1 : Int), (2 : Int), (3 : Int))]} []).accel_data = [] :=
  C4_disabled_amended _ [] 7 rfl rfl

/-! Theorems about V1 UP/DOWN row navigation (claim C1). -/

/-- C1 counterexample: with 3 rows and the row index at 0, a UP command
outside the lobby with input allowed suppresses the send but sets the
stored row index to 3 (the number of rows), not to 2 (the last row index)
as the claim states. -/
theorem C1_up_wrap_counterexample :
    (preprocess_command_for_v1
        {JoyDance_init .V1 with
          is_input_allowed := true,
          v1_num_columns_per_row_id := [1, 1, 1]} Command.UP).1.v1_row_num = 3 ∧
    (preprocess_command_for_v1
        {JoyDance_init .V1 with
          is_input_allowed := true,
          v1_num_columns_per_row_id := [1, 1, 1]} Command.UP).1.v1_row_num ≠ 2 ∧
    (preprocess_command_for_v1
        {JoyDance_init .V1 with
          is_input_allowed := true,
          v1_num_columns_per_row_id := [1, 1, 1]} Command.UP).2 = PreOut.suppressed := by
  decide

/-- C1 amended: in V1 preprocessing outside the lobby with input allowed,
UP at row index 0 (or below) emits nothing and sets the stored row index
to the number of rows (the length of the per-row column-count map), DOWN
at or beyond the last row index emits nothing and wraps the stored row
index to 0, and every other UP/DOWN emits exactly one ChangeRow message
carrying the new row index. -/
theorem C1_up_down_amended (st : JD)
    (h1 : st.is_input_allowed = true) (h2 : st.is_in_lobby = false) :
    (st.v1_row_num ≤ 0 →
      preprocess_command_for_v1 st Command.UP =
        ({st with v1_row_num := (st.v1_num_columns_per_row_id.length : Int)},
         PreOut.suppressed)) ∧
    (0 < st.v1_row_num →
      preprocess_command_for_v1 st Command.UP =
        ({st with v1_row_num := st.v1_row_num - 1},
         PreOut.msg ⟨"ChangeRow_PhoneCommandData",
           [("rowIndex", PyVal.int (st.v1_row_num - 1))]⟩)) ∧
    ((st.v1_num_columns_per_row_id.length : Int) - 1 ≤ st.v1_row_num →
      preprocess_command_for_v1 st Command.DOWN =
        ({st with v1_row_num := 0}, PreOut.suppressed)) ∧
    (st.v1_row_num < (st.v1_num_columns_per_row_id.length : Int) - 1 →
      preprocess_command_for_v1 st Command.DOWN =
        ({st with v1_row_num := st.v1_row_num + 1},
         PreOut.msg ⟨"ChangeRow_PhoneCommandData",
           [("rowIndex", PyVal.int (st.v1_row_num + 1))]⟩)) := by
  refine ⟨fun h => ?_, fun h => ?_, fun h => ?_, fun h => ?_⟩
  · simp [preprocess_command_for_v1, Command.value, PyVal.isStr, h1, h2, h]
  · simp [preprocess_command_for_v1, Command.value, PyVal.isStr, h1, h2, not_le.mpr h]
  · simp [preprocess_command_for_v1, Command.value, PyVal.isStr, h1, h2, ge_iff_le, h]
  · simp [preprocess_command_for_v1, Command.value, PyVal.isStr, h1, h2, ge_iff_le,
      not_le.mpr h]

/-- Witness for C1_up_down_amended: UP at row 1 with two rows emits one
ChangeRow message with row index 0. -/
theorem C1_up_down_amended_witness :
    (preprocess_command_for_v1
        {JoyDance_init .V1 with
          is_input_allowed := true,
          v1_row_num := 1,
          v1_num_columns_per_row_id := [2, 2]} Command.UP).2 =
      PreOut.msg ⟨"ChangeRow_PhoneCommandData", [("rowIndex", PyVal.int 0)]⟩ := by
  have h := C1_up_down_amended
    {JoyDance_init .V1 with
      is_input_allowed := true,
      v1_row_num := 1,
      v1_num_columns_per_row_id := [2, 2]} rfl rfl
  rw [h.2.1 (by decide)]
  decide

/-! Theorems about the input-send gate (claim C9). -/

theorem preprocess_for_v1_preserves (st : JD) (c : Command) :
    (preprocess_command_for_v1 st c).1.is_input_allowed = st.is_input_allowed := by
  cases c
  case PAUSE => rfl
  case BACK =>
    show (if st.is_search_opened then ((st : JD), PreOut.msg ⟨"JD_CancelKeyboard_PhoneCommandData", []⟩) else (st, PreOut.msg ⟨"JD_Custom_PhoneCommandData", [("identifier", Command.value .BACK)]⟩)).1.is_input_allowed = st.is_input_allowed
    split <;> rfl
  case ACCEPT =>
    show (if st.is_in_lobby then ((st : JD), PreOut.msg ⟨"JD_StartGame_PhoneCommandData", []⟩) else if st.is_on_recap then (st, PreOut.msg ⟨"JD_Input_PhoneCommandData", [("input", Command.value .ACCEPT)]⟩) else if st.is_search_opened then (st, PreOut.msg ⟨"JD_Input_PhoneCommandData", [("input", Command.value .V1_KEYBOARD_ERROR_OK)]⟩) else (st, PreOut.msg ⟨"ValidateAction_PhoneCommandData", [("rowIndex", .int st.v1_row_num), ("itemIndex", .int (st.v1_col_num_per_row_id st.v1_row_num)), ("actionIndex", .int st.v1_action_id)]⟩)).1.is_input_allowed = st.is_input_allowed
    repeat' split
    all_goals rfl
  case V1_KEYBOARD_ERROR_OK =>
    show (if ¬ st.is_input_allowed then ((st : JD), PreOut.suppressed) else (st, PreOut.err)).1.is_input_allowed = st.is_input_allowed
    split <;> rfl
  case UP =>
    show (if ¬ st.is_input_allowed then ((st : JD), PreOut.suppressed) else if st.is_in_lobby then (st, PreOut.suppressed) else if st.v1_row_num ≤ 0 then ({st with v1_row_num := (st.v1_num_columns_per_row_id.length : Int)}, PreOut.suppressed) else ({st with v1_row_num := st.v1_row_num - 1}, PreOut.msg ⟨"ChangeRow_PhoneCommandData", [("rowIndex", PyVal.int (st.v1_row_num - 1))]⟩)).1.is_input_allowed = st.is_input_allowed
    repeat' split
    all_goals rfl
  case DOWN =>
    show (if ¬ st.is_input_allowed then ((st : JD), PreOut.suppressed) else if st.is_in_lobby then (st, PreOut.suppressed) else if st.v1_row_num ≥ (st.v1_num_columns_per_row_id.length : Int) - 1 then ({st with v1_row_num := 0}, PreOut.suppressed) else ({st with v1_row_num := st.v1_row_num + 1}, PreOut.msg ⟨"ChangeRow_PhoneCommandData", [("rowIndex", PyVal.int (st.v1_row_num + 1))]⟩)).1.is_input_allowed = st.is_input_allowed
    repeat' split
    all_goals rfl
  case LEFT =>
    show (if ¬ st.is_input_allowed then ((st : JD), PreOut.suppressed) else if ¬ st.is_in_lobby then (if st.v1_col_num_per_row_id st.v1_row_num - 1 < 0 then match v1_num_columns_get {st with v1_col_num_per_row_id := updInt st.v1_col_num_per_row_id st.v1_row_num (st.v1_col_num_per_row_id st.v1_row_num - 1)} st.v1_row_num with | none => ({st with v1_col_num_per_row_id := updInt st.v1_col_num_per_row_id st.v1_row_num (st.v1_col_num_per_row_id st.v1_row_num - 1)}, PreOut.err) | some ncols => ({st with v1_col_num_per_row_id := updInt (updInt st.v1_col_num_per_row_id st.v1_row_num (st.v1_col_num_per_row_id st.v1_row_num - 1)) st.v1_row_num ((ncols : Int) - 1)}, PreOut.msg ⟨"ChangeItem_PhoneCommandData", [("rowIndex", .int st.v1_row_num), ("itemIndex", .int ((ncols : Int) - 1))]⟩) else ({st with v1_col_num_per_row_id := updInt st.v1_col_num_per_row_id st.v1_row_num (st.v1_col_num_per_row_id st.v1_row_num - 1)}, PreOut.msg ⟨"ChangeItem_PhoneCommandData", [("rowIndex", .int st.v1_row_num), ("itemIndex", .int (st.v1_col_num_per_row_id st.v1_row_num - 1))]⟩)) else if st.v1_coach_id = 0 then (st, PreOut.suppressed) else if st.v1_coach_id < 0 then ({st with v1_coach_id := 0}, PreOut.suppressed) else ({st with v1_coach_id := st.v1_coach_id - 1}, PreOut.msg ⟨"JD_ChangeCoach_PhoneCommandData", [("coachId", .int (st.v1_coach_id - 1))]⟩)).1.is_input_allowed = st.is_input_allowed
    repeat' split
    all_goals rfl
  case RIGHT =>
    show (if ¬ st.is_input_allowed then ((st : JD), PreOut.suppressed) else if ¬ st.is_in_lobby then (match v1_num_columns_get {st with v1_col_num_per_row_id := updInt st.v1_col_num_per_row_id st.v1_row_num (st.v1_col_num_per_row_id st.v1_row_num + 1)} st.v1_row_num with | none => ({st with v1_col_num_per_row_id := updInt st.v1_col_num_per_row_id st.v1_row_num (st.v1_col_num_per_row_id st.v1_row_num + 1)}, PreOut.err) | some ncols => if st.v1_col_num_per_row_id st.v1_row_num + 1 ≥ (ncols : Int) then ({st with v1_col_num_per_row_id := updInt (updInt st.v1_col_num_per_row_id st.v1_row_num (st.v1_col_num_per_row_id st.v1_row_num + 1)) st.v1_row_num 0}, PreOut.msg ⟨"ChangeItem_PhoneCommandData", [("rowIndex", .int st.v1_row_num), ("itemIndex", .int 0)]⟩) else ({st with v1_col_num_per_row_id := updInt st.v1_col_num_per_row_id st.v1_row_num (st.v1_col_num_per_row_id st.v1_row_num + 1)}, PreOut.msg ⟨"ChangeItem_PhoneCommandData", [("rowIndex", .int st.v1_row_num), ("itemIndex", .int (st.v1_col_num_per_row_id st.v1_row_num + 1))]⟩)) else if st.v1_coach_id ≥ st.v1_num_coaches - 1 then ({st with v1_coach_id := st.v1_num_coaches - 1}, PreOut.suppressed) else ({st with v1_coach_id := st.v1_coach_id + 1}, PreOut.msg ⟨"JD_ChangeCoach_PhoneCommandData", [("coachId", .int (st.v1_coach_id + 1))]⟩)).1.is_input_allowed = st.is_input_allowed
    repeat' split
    all_goals rfl
  all_goals rfl

theorem preprocess_for_v2_preserves (st : JD) (c : Command) :
    (preprocess_command_for_v2 st c).1.is_input_allowed = st.is_input_allowed := by
  cases c <;> rfl

theorem preprocess_preserves_input_allowed (st : JD) (c : Command) :
    (preprocess_command st c).1.is_input_allowed = st.is_input_allowed := by
  unfold preprocess_command
  split
  · exact preprocess_for_v1_preserves st c
  · exact preprocess_for_v2_preserves st c

/-- C9: one iteration of the input-send loop transmits a message only when
is_input_allowed holds — commands the preprocessor maps unconditionally are
still preprocessed, but the resulting message is not sent over the
transport unless is_input_allowed is true at send time. -/
theorem C9_no_send_without_input_allowed (st : JD) (cmd : Option Command) (m : OutMsg)
    (h : (send_command_frame st cmd).2 = some m) :
    st.is_input_allowed = true := by
  unfold send_command_frame at h
  split at h
  · simp at h
  · split at h
    · simp at h
    · cases cmd with
      | none => simp at h
      | some c =>
        simp only at h
        split at h
        · simp at h
        · simp at h
        · split at h
          · next hcond =>
            rw [preprocess_preserves_input_allowed st c] at hcond
            exact hcond
          · simp at h

/-- Witness for C9_no_send_without_input_allowed: a PAUSE command sent
from a state with input allowed. -/
theorem C9_no_send_without_input_allowed_witness :
    (send_command_frame {JoyDance_init .V1 with
        is_input_allowed := true} (some Command.PAUSE)).2 =
      some ⟨"JD_Pause_PhoneCommandData", []⟩ ∧
    ({JoyDance_init .V1 with is_input_allowed := true} : JD).is_input_allowed = true :=
  ⟨by decide,
   C9_no_send_without_input_allowed
     {JoyDance_init .V1 with is_input_allowed := true}
     (some Command.PAUSE) ⟨"JD_Pause_PhoneCommandData", []⟩ (by decide)⟩

/-! Lemmas about the batching loop, shared by the accelerometer claims. -/

theorem flushLoop_nil (fuel : Nat) (sent : Int) : flushLoop fuel [] sent = ([], sent) := by
  cases fuel <;> rfl

theorem flushLoop_ne (fuel : Nat) (l : List Accel) (sent : Int) (h : l ≠ []) :
    flushLoop (fuel + 1) l sent =
      ({accelData := l.take (min l.length 10), timeStamp := sent} ::
         (flushLoop fuel (l.drop (min l.length 10)) (sent + (min l.length 10 : Nat))).1,
       (flushLoop fuel (l.drop (min l.length 10)) (sent + (min l.length 10 : Nat))).2) := by
  cases l with
  | nil => exact absurd rfl h
  | cons a rest => rfl

theorem flushLoop_join (fuel : Nat) : ∀ (l : List Accel) (sent : Int),
    l.length ≤ fuel →
    ((flushLoop fuel l sent).1.map (fun m => m.accelData)).flatten = l := by
  induction fuel with
  | zero =>
    intro l sent h
    have hl : l = [] := List.length_eq_zero.mp (by omega)
    subst hl
    simp [flushLoop_nil]
  | succ f ih =>
    intro l sent h
    rcases eq_or_ne l [] with rfl | hne
    · simp [flushLoop_nil]
    · rw [flushLoop_ne f l sent hne]
      have hpos : 0 < l.length := List.length_pos.mpr hne
      have hlen : (l.drop (min l.length 10)).length ≤ f := by
        simp only [List.length_drop]
        omega
      simp only [List.map_cons, List.flatten_cons, ih _ _ hlen]
      exact List.take_append_drop _ l

theorem flushLoop_size (fuel : Nat) : ∀ (l : List Accel) (sent : Int) (m : ScoringMsg),
    m ∈ (flushLoop fuel l sent).1 → m.accelData.length ≤ 10 := by
  induction fuel with
  | zero =>
    intro l sent m hm
    cases l with
    | nil => rw [flushLoop_nil] at hm; simp at hm
    | cons a rest => simp [flushLoop] at hm
  | succ f ih =>
    intro l sent m hm
    rcases eq_or_ne l [] with rfl | hne
    · rw [flushLoop_nil] at hm; simp at hm
    · rw [flushLoop_ne f l sent hne] at hm
      simp only [List.mem_cons] at hm
      rcases hm with rfl | hm
      · simp only [List.length_take]
        omega
      · exact ih _ _ _ hm

theorem send_accel_lt3 (st : JD) (fr : Nat) (h : fr < 3) :
    send_accelerometer_data st fr = (st, []) := by
  simp [send_accelerometer_data, h]

theorem send_accel_flush (st : JD) (fr : Nat)
    (hs : st.should_start_accelerometer = true) (h : ¬ fr < 3) :
    send_accelerometer_data st fr =
      ({st with
          accel_data := [],
          number_of_accels_sent :=
            (flushLoop st.accel_data.length st.accel_data st.number_of_accels_sent).2},
       (flushLoop st.accel_data.length st.accel_data st.number_of_accels_sent).1) := by
  simp [send_accelerometer_data, hs, h]

theorem tick_step_enabled (st : JD) (s : List Accel) (f : Nat)
    (hd : st.disconnected = false) (hs : st.should_start_accelerometer = true) :
    tick_step st s f =
      ((send_accelerometer_data {st with accel_data := st.accel_data ++ s}
          (if f < 3 then f + 1 else 1)).1,
       (if f < 3 then f + 1 else 1),
       (send_accelerometer_data {st with accel_data := st.accel_data ++ s}
          (if f < 3 then f + 1 else 1)).2) := by
  simp [tick_step, collect_accelerometer_data, hd, hs]

/-! Theorems about the accelerometer batch shape (claim C3). -/

/-- C3: on a flush frame (frames counter at 3) with exactly 23 buffered
samples and the sent-sample counter at 0, exactly three scoring messages
are produced, with batch sizes 10, 10, 3 and timestamps 0, 10, 20, the
samples appear across the batches in buffer order, and the buffer is left
empty. -/
theorem C3_batches (st : JD) (hs : st.should_start_accelerometer = true)
    (hn : st.number_of_accels_sent = 0) (hl : st.accel_data.length = 23) :
    ((send_accelerometer_data st 3).2).length = 3 ∧
    ((send_accelerometer_data st 3).2).map (fun m => m.accelData.length) = [10, 10, 3] ∧
    ((send_accelerometer_data st 3).2).map (fun m => m.timeStamp) = [0, 10, 20] ∧
    (((send_accelerometer_data st 3).2).map (fun m => m.accelData)).flatten = st.accel_data ∧
    (send_accelerometer_data st 3).1.accel_data = [] := by
  have hne1 : st.accel_data ≠ [] := by
    intro e; rw [e] at hl; simp at hl
  have hmin1 : min st.accel_data.length 10 = 10 := by omega
  have hlen2 : (st.accel_data.drop 10).length = 13 := by
    simp [List.length_drop]; omega
  have hne2 : st.accel_data.drop 10 ≠ [] := by
    intro e; rw [e] at hlen2; simp at hlen2
  have hmin2 : min (st.accel_data.drop 10).length 10 = 10 := by omega
  have hlen3 : ((st.accel_data.drop 10).drop 10).length = 3 := by
    simp [List.length_drop]; omega
  have hne3 : (st.accel_data.drop 10).drop 10 ≠ [] := by
    intro e; rw [e] at hlen3; simp at hlen3
  have hmin3 : min ((st.accel_data.drop 10).drop 10).length 10 = 3 := by omega
  have hnil : ((st.accel_data.drop 10).drop 10).drop 3 = [] := by
    refine List.length_eq_zero.mp ?_
    simp [List.length_drop]; omega
  have c10 : (0 : Int) + ((10 : Nat) : Int) = 10 := by norm_num
  have c20 : (10 : Int) + ((10 : Nat) : Int) = 20 := by norm_num
  have c23 : (20 : Int) + ((3 : Nat) : Int) = 23 := by norm_num
  have hflush : flushLoop st.accel_data.length st.accel_data 0 =
      ([{accelData := st.accel_data.take 10, timeStamp := 0},
        {accelData := (st.accel_data.drop 10).take 10, timeStamp := 10},
        {accelData := ((st.accel_data.drop 10).drop 10).take 3, timeStamp := 20}], 23) := by
    rw [hl, show (23 : Nat) = 22 + 1 from rfl, flushLoop_ne 22 _ _ hne1, hmin1, c10,
      show (22 : Nat) = 21 + 1 from rfl, flushLoop_ne 21 _ _ hne2, hmin2, c20,
      show (21 : Nat) = 20 + 1 from rfl, flushLoop_ne 20 _ _ hne3, hmin3, c23, hnil,
      flushLoop_nil]
  have hmain : send_accelerometer_data st 3 =
      ({st with accel_data := [], number_of_accels_sent := 23},
       [{accelData := st.accel_data.take 10, timeStamp := 0},
        {accelData := (st.accel_data.drop 10).take 10, timeStamp := 10},
        {accelData := ((st.accel_data.drop 10).drop 10).take 3, timeStamp := 20}]) := by
    rw [send_accel_flush st 3 hs (by omega), hn, hflush]
  refine ⟨?_, ?_, ?_, ?_, ?_⟩
  · simp only [hmain]
    rfl
  · simp only [hmain, List.map_cons, List.map_nil, List.length_take]
    rw [hl, hlen2, hlen3]
    decide
  · simp only [hmain]
    rfl
  · simp only [hmain, List.map_cons, List.map_nil, List.flatten_cons, List.flatten_nil,
      List.append_nil]
    rw [List.take_of_length_le (le_of_eq hlen3)]
    repeat rw [List.take_append_drop]
  · simp only [hmain]

/-- Witness for C3_batches on a concrete buffer of 23 samples. -/
theorem C3_batches_witness :
    ((send_accelerometer_data {JoyDance_init .V1 with
        should_start_accelerometer := true,
        accel_data := (List.range 23).map (fun i => ((i : Int), (0 : Int), (0 : Int)))}
      3).2).map (fun m => m.accelData.length) = [10, 10, 3] :=
  (C3_batches {JoyDance_init .V1 with
      should_start_accelerometer := true,
      accel_data := (List.range 23).map (fun i => ((i : Int), (0 : Int), (0 : Int)))}
    rfl rfl (by decide)).2.1

/-! Theorems about the flush cadence of the tick loop (claim C2). -/

/-- C2 counterexample: four consecutive enabled frames, each collecting
one sample, starting from a fresh frames counter.  The third frame flushes
(one batch of the three samples), but the fourth enabled frame — which
follows a completed 3-frame warm-up — sends nothing and leaves its sample
in the buffer, refuting the claim that every enabled frame past the
warm-up flushes the buffer. -/
theorem C2_flush_counterexample :
    (tick_run {JoyDance_init .V1 with should_start_accelerometer := true} 0
        [[((1 : Int), (2 : Int), (3 : Int))], [((1 : Int), (2 : Int), (3 : Int))],
         [((1 : Int), (2 : Int), (3 : Int))], [((1 : Int), (2 : Int), (3 : Int))]]).2.2 =
      [[], [],
       [{accelData := [((1 : Int), (2 : Int), (3 : Int)), ((1 : Int), (2 : Int), (3 : Int)),
          ((1 : Int), (2 : Int), (3 : Int))], timeStamp := 0}],
       []] ∧
    (tick_run {JoyDance_init .V1 with should_start_accelerometer := true} 0
        [[((1 : Int), (2 : Int), (3 : Int))], [((1 : Int), (2 : Int), (3 : Int))],
         [((1 : Int), (2 : Int), (3 : Int))], [((1 : Int), (2 : Int), (3 : Int))]]).1.accel_data =
      [((1 : Int), (2 : Int), (3 : Int))] := by
  decide

/-- C2 amended: during enabled frames the frames counter cycles 1, 2, 3
and then restarts at 1, and the buffer is flushed exactly on the frames
where the counter reaches 3 (every third consecutive enabled frame): on
those frames the buffer is emptied into batches of at most 10 samples in
order, and on all other enabled frames nothing is sent and the samples
collected this frame stay buffered. -/
theorem C2_flush_amended (st : JD) (s : List Accel) (f : Nat)
    (hd : st.disconnected = false) (hs : st.should_start_accelerometer = true) :
    (tick_step st s f).2.1 = (if f < 3 then f + 1 else 1) ∧
    ((tick_step st s f).2.1 < 3 →
      (tick_step st s f).2.2 = [] ∧
      (tick_step st s f).1.accel_data = st.accel_data ++ s) ∧
    ((tick_step st s f).2.1 = 3 →
      (tick_step st s f).1.accel_data = [] ∧
      (((tick_step st s f).2.2).map (fun m => m.accelData)).flatten = st.accel_data ++ s ∧
      (∀ m ∈ (tick_step st s f).2.2, m.accelData.length ≤ 10)) := by
  rw [tick_step_enabled st s f hd hs]
  refine ⟨rfl, ?_, ?_⟩
  · intro h2
    simp only at h2
    rw [send_accel_lt3 _ _ h2]
    exact ⟨rfl, rfl⟩
  · intro h3
    simp only at h3
    rw [send_accel_flush {st with accel_data := st.accel_data ++ s}
      (if f < 3 then f + 1 else 1)
      (show ({st with accel_data := st.accel_data ++ s} : JD).should_start_accelerometer = true
        from hs)
      (by omega)]
    refine ⟨rfl, ?_, ?_⟩
    · exact flushLoop_join _ _ _ (le_refl _)
    · intro m hm
      exact flushLoop_size _ _ _ m hm

/-- Witness for C2_flush_amended on the third enabled frame (frames
counter 2 entering the frame, so the counter reaches 3 and flushes). -/
theorem C2_flush_amended_witness :
    (tick_step {JoyDance_init .V1 with should_start_accelerometer := true}
        [((1 : Int), (2 : Int), (3 : Int))] 2).1.accel_data = [] ∧
    (((tick_step {JoyDance_init .V1 with should_start_accelerometer := true}
        [((1 : Int), (2 : Int), (3 : Int))] 2).2.2).map (fun m => m.accelData)).flatten =
      ({JoyDance_init .V1 with should_start_accelerometer := true} : JD).accel_data ++
        ([((1 : Int), (2 : Int), (3 : Int))] : List Accel) ∧
    (∀ m ∈ (tick_step {JoyDance_init .V1 with should_start_accelerometer := true}
        [((1 : Int), (2 : Int), (3 : Int))] 2).2.2, m.accelData.length ≤ 10) :=
  (C2_flush_amended {JoyDance_init .V1 with should_start_accelerometer := true}
    [((1 : Int), (2 : Int), (3 : Int))] 2 rfl rfl).2.2 (by decide)

/-! Theorems about the pairing-code validator (claim C8). -/

/-- C8 counterexample: re.match anchors the pattern with a dollar, and in
Python a dollar also matches just before a single trailing newline, so the
validator accepts the 7-character string of six digits followed by a
newline, which does not consist of exactly 6 digits; the if-and-only-if in
the claim is therefore false at this input. -/
theorem C8_pairing_code_counterexample :
    is_valid_pairing_code ['1', '2', '3', '4', '5', '6', '\n'] = true ∧
    exactly_six_digits ['1', '2', '3', '4', '5', '6', '\n'] = false := by
  decide

/-- C8 amended: the validator accepts a string if and only if it consists
of exactly 6 digits or of exactly 6 digits followed by a single trailing
newline (the Python dollar-anchor rule); and a connect request with
pairing method default and the pairing code 12a45 is rejected by the
validation prologue, before any network activity starts, whatever the
submitted IP addresses. -/
theorem C8_pairing_code_amended (s : List Char) :
    (is_valid_pairing_code s = true ↔
      (exactly_six_digits s = true ∨
        (s.getLast? = some '\n' ∧ exactly_six_digits s.dropLast = true))) ∧
    (∀ host console : List Char,
      connect_joycon "default" host console ['1', '2', 'a', '4', '5'] =
        ConnectResult.rejected) := by
  constructor
  · unfold is_valid_pairing_code dollarAnchor reDigits6 exactly_six_digits
    cases hgl : s.getLast? with
    | none => simp
    | some c => simp
  · intro host console
    have hcode : is_valid_pairing_code ['1', '2', 'a', '4', '5'] = false := by decide
    simp [connect_joycon, is_valid_pairing_method, hcode]

/-- Witness for C8_pairing_code_amended: the validator accepts a concrete
6-digit code. -/
theorem C8_pairing_code_amended_witness :
    is_valid_pairing_code ['1', '2', '3', '4', '5', '6'] = true :=
  (C8_pairing_code_amended ['1', '2', '3', '4', '5', '6']).1.mpr (Or.inl (by decide))

/-! Theorems about shortcut replacement in JD_PhoneUiSetupData (claim C10). -/

theorem parse_phone_setup_shortcuts (st : JD) (m : PhoneUiSetupMsg)
    (hsh : m.shortcuts ≠ []) :
    (parse_phone_setup_data st m).available_shortcuts =
      m.shortcuts.filterMap parse_shortcut := by
  unfold parse_phone_setup_data
  simp [hsh]

/-- C10: under V1, handling a JD_PhoneUiSetupData message with a non-empty
setupData.shortcuts list replaces available_shortcuts wholesale with the
identifiers parsed from that list; in particular the PAUSE command added
earlier for the pause slider survives only if PAUSE is among the parsed
identifiers. -/
theorem C10_shortcuts_replaced (st : JD) (m : PhoneUiSetupMsg)
    (hv : st.protocol_version = .V1) (hsh : m.shortcuts ≠ [])
    (hp : m.pauseSlider = true) :
    (on_phone_ui_setup_data st m).available_shortcuts =
      m.shortcuts.filterMap parse_shortcut ∧
    (Command.PAUSE ∈ (on_phone_ui_setup_data st m).available_shortcuts ↔
      Command.PAUSE ∈ m.shortcuts.filterMap parse_shortcut) := by
  have hmain : (on_phone_ui_setup_data st m).available_shortcuts =
      m.shortcuts.filterMap parse_shortcut := by
    unfold on_phone_ui_setup_data
    simp only [hp, if_true, hv]
    split
    · exact parse_phone_setup_shortcuts _ _ hsh
    · exact parse_phone_setup_shortcuts _ _ hsh
  exact ⟨hmain, by rw [hmain]⟩

/-- Witness for C10_shortcuts_replaced: a setup message with a pause
slider and one SKIP shortcut leaves only SKIP available — PAUSE is
discarded. -/
theorem C10_shortcuts_replaced_witness :
    (on_phone_ui_setup_data (JoyDance_init .V1)
        {isPopup := 0, inputSetup := none, pauseSlider := true,
         mainCarouselRows := [], lobbyCoaches := 0, recapSetup := false,
         shortcuts := [{identifier := some "SHORTCUT_SKIP", input := none}]}).available_shortcuts =
      ({isPopup := 0, inputSetup := none, pauseSlider := true,
        mainCarouselRows := [], lobbyCoaches := 0, recapSetup := false,
        shortcuts := [{identifier := some "SHORTCUT_SKIP", input := none}]} :
          PhoneUiSetupMsg).shortcuts.filterMap parse_shortcut :=
  (C10_shortcuts_replaced (JoyDance_init .V1)
    {isPopup := 0, inputSetup := none, pauseSlider := true,
     mainCarouselRows := [], lobbyCoaches := 0, recapSetup := false,
     shortcuts := [{identifier := some "SHORTCUT_SKIP", input := none}]}
    rfl (by decide) rfl).1
